import Mathlib

/-!
Verification of the Revit MCP tool-handler bridge
(`src/docker/mcp-tool-handler.py`).

The bridge translates between the MCP front protocol and the Revit MCP
Server backend.  We embed the request/response data as a JSON value type,
the translator functions `translate_mcp_to_revit` / `translate_revit_to_mcp`
as pure `Except`-valued functions (a Python exception is `Except.error`),
the dispatcher `handle_tool_request` as a total function parameterised by
the backend's behaviour, the HTTP front end `do_POST`, the readiness loop
`_wait_for_server_ready`, the registry client `register_tools`, and
`shutdown`.  Effects (network calls, logs) are made explicit as data.
-/

/-- JSON values, the shape of all payloads moved by the bridge.
Objects keep insertion order, as Python dicts do. -/
inductive Json where
  | str : String → Json
  | num : Int → Json
  | bool : Bool → Json
  | null : Json
  | arr : List Json → Json
  | obj : List (String × Json) → Json

namespace Json

/-- Python `d.get(key, default)` on a dict: the stored value, else the default. -/
def getD (kvs : List (String × Json)) (key : String) (d : Json) : Json :=
  (kvs.lookup key).getD d

end Json

/-! Configuration constants (the environment-variable defaults in the source). -/

def REGISTRY_URL : String := "http://localhost:8081"

def TOOL_ID : String := "revit"

def AUTH_TOKEN : String := "default-dev-token"

def TOOL_PORT : Nat := 8082

def REVIT_HOST : String := "localhost"

def REVIT_PORT : Nat := 5000

/-- `RevitMcpToolHandler.translate_mcp_to_revit`.  Dispatches on the tool
name by string comparison; for the two known tools it reads
`mcp_request.get("inputs", {}).get(key, default)`, which raises
`AttributeError` (here `Except.error`) when the receiver of `.get` is not a
dict; for any other tool name it raises `ValueError("Unknown tool: ...")`. -/
def translate_mcp_to_revit (tool_name : String) (mcp_request : Json) :
    Except String Json :=
  if tool_name = "revit_element_query" then
    match mcp_request with
    | .obj kvs =>
      match Json.getD kvs "inputs" (.obj []) with
      | .obj ikvs =>
        .ok (.obj [("action", .str "getElementsByCategory"),
                   ("parameters", .obj
                     [("category", Json.getD ikvs "category" (.str "")),
                      ("filterExpression", Json.getD ikvs "filter" (.str ""))])])
      | _ => .error "AttributeError: object has no attribute get"
    | _ => .error "AttributeError: object has no attribute get"
  else if tool_name = "revit_dynamo_execute" then
    match mcp_request with
    | .obj kvs =>
      match Json.getD kvs "inputs" (.obj []) with
      | .obj ikvs =>
        .ok (.obj [("action", .str "runDynamoScript"),
                   ("parameters", .obj
                     [("scriptPath", Json.getD ikvs "script_path" (.str "")),
                      ("scriptParameters", Json.getD ikvs "parameters" (.obj []))])])
      | _ => .error "AttributeError: object has no attribute get"
    | _ => .error "AttributeError: object has no attribute get"
  else
    .error ("Unknown tool: " ++ tool_name)

/-- Python `revit_response.get("status") == "error"`: true exactly when the
`status` key is present and holds the string `"error"`. -/
def isErrorStatus : Option Json → Bool
  | some (Json.str s) => s = "error"
  | _ => false

/-- `RevitMcpToolHandler.translate_revit_to_mcp`.  First checks the
backend-reported error indicator and short-circuits to the uniform error
shape; otherwise extracts `data` and builds the tool-specific success
shape; an unknown tool name raises `ValueError`. -/
def translate_revit_to_mcp (tool_name : String) (revit_response : Json) :
    Except String Json :=
  match revit_response with
  | .obj kvs =>
    if isErrorStatus (kvs.lookup "status") then
      .ok (.obj [("status", .str "error"),
                 ("error", Json.getD kvs "error" (.str "Unknown error"))])
    else
      if tool_name = "revit_element_query" then
        .ok (.obj [("status", .str "success"),
                   ("result", Json.getD kvs "data" (.obj []))])
      else if tool_name = "revit_dynamo_execute" then
        .ok (.obj [("status", .str "success"),
                   ("result", .obj [("success", .bool true),
                                    ("results", Json.getD kvs "data" (.obj []))])])
      else
        .error ("Unknown tool: " ++ tool_name)
  | _ => .error "AttributeError: object has no attribute get"

/-- Outcome of one `requests.post` to the backend: a transport-level
exception, or an HTTP response with a status code, a body text and the
result of `response.json()` (which fails on a non-JSON body). -/
inductive BackendOutcome where
  | transportError (msg : String)
  | response (status_code : Nat) (text : String) (body : Except String Json)

/-- The uniform error result the dispatcher builds in its `except` clause:
`{"status": "error", "error": str(e)}`. -/
def errorResponse (msg : String) : Json :=
  Json.obj [("status", Json.str "error"), ("error", Json.str msg)]

def element_query_endpoint : String :=
  "http://" ++ REVIT_HOST ++ ":" ++ toString REVIT_PORT ++ "/api/element/mcp"

def dynamo_execute_endpoint : String :=
  "http://" ++ REVIT_HOST ++ ":" ++ toString REVIT_PORT ++ "/api/dynamo/mcp"

/-- `RevitMcpToolHandler.handle_tool_request`.  The whole body runs inside
`try/except Exception`, so every raise becomes the uniform error dict.  The
backend is a parameter mapping (endpoint, request body) to an outcome; the
returned `Bool` records whether the outbound backend call was performed. -/
def handle_tool_request (tool_name : String) (request_data : Json)
    (backend : String → Json → BackendOutcome) : Json × Bool :=
  match translate_mcp_to_revit tool_name request_data with
  | .error e => (errorResponse e, false)
  | .ok revit_request =>
    match (if tool_name = "revit_element_query" then
             Except.ok element_query_endpoint
           else if tool_name = "revit_dynamo_execute" then
             Except.ok dynamo_execute_endpoint
           else
             Except.error ("Unknown tool: " ++ tool_name) : Except String String) with
    | .error e => (errorResponse e, false)
    | .ok endpoint =>
      match backend endpoint revit_request with
      | .transportError msg => (errorResponse msg, true)
      | .response code text body =>
        if code ≠ 200 then
          (errorResponse ("Revit MCP Server returned status " ++ toString code
             ++ ": " ++ text), true)
        else
          match body with
          | .error e => (errorResponse e, true)
          | .ok revit_response =>
            match translate_revit_to_mcp tool_name revit_response with
            | .ok mcp_response => (mcp_response, true)
            | .error e => (errorResponse e, true)

/-- An HTTP response as written by `do_POST`: status line, content type and
the JSON value passed to `json.dumps` (serialising a `Json` value always
yields well-formed JSON text, so we keep the value). -/
structure HttpResponse where
  status_code : Nat
  content_type : String
  body : Json

/-- Python `s.split(sep)` on a character list: always at least one group,
adjacent separators yield empty groups. -/
def splitOnChar (sep : Char) : List Char → List (List Char)
  | [] => [[]]
  | c :: rest =>
    if c = sep then [] :: splitOnChar sep rest
    else
      match splitOnChar sep rest with
      | [] => [[c]]
      | g :: gs => (c :: g) :: gs

/-- `self.path.strip('/').split('/')[-1]`: strip leading and trailing
slashes, split on `/`, take the last component. -/
def pathToolName (path : String) : String :=
  String.mk ((splitOnChar '/'
    (((path.toList.dropWhile (fun c => c = '/')).reverse.dropWhile
      (fun c => c = '/')).reverse)).getLastD [])

/-- `MCP_ToolRequestHandler.do_POST`.  `parsed_body` is the result of
reading `Content-Length` bytes and `json.loads` on them; when that raises
(missing header, malformed JSON) the exception propagates out of `do_POST`
uncaught (`Except.error`).  Otherwise the handler result is written with
an unconditional 200 status. -/
def do_POST (parsed_body : Except String Json) (path : String)
    (backend : String → Json → BackendOutcome) : Except String HttpResponse :=
  match parsed_body with
  | .error e => .error e
  | .ok request_data =>
    .ok { status_code := 200, content_type := "application/json",
          body := (handle_tool_request (pathToolName path) request_data backend).1 }

/-- The front-protocol success shape `{status: "success", result: ...}`. -/
def isSuccessShape (j : Json) : Prop :=
  ∃ r, j = Json.obj [("status", Json.str "success"), ("result", r)]

/-- The front-protocol error shape `{status: "error", error: ...}`. -/
def isErrorShape (j : Json) : Prop :=
  ∃ e, j = Json.obj [("status", Json.str "error"), ("error", e)]

/-- Outcome of one health probe `requests.get(".../api/status")`: an HTTP
response with a status code, or `requests.exceptions.ConnectionError`
(the only exception the loop catches). -/
inductive ProbeOutcome where
  | ok (status_code : Nat)
  | connError

/-- The `for _ in range(max_retries)` body of `_wait_for_server_ready`:
`attempt` is the index of the next probe, the fuel is the remaining
iterations.  Returns the result together with the number of probes issued.
Succeeds (returns) exactly when a probe's status code is 200; a connection
error or any other status code falls through to the next iteration; when
the range is exhausted it raises `RuntimeError("Failed to connect to Revit
MCP Server")`. -/
def waitLoop (probe : Nat → ProbeOutcome) (attempt : Nat) :
    Nat → Except String Unit × Nat
  | 0 => (.error "Failed to connect to Revit MCP Server", attempt)
  | fuel + 1 =>
    match probe attempt with
    | .ok code =>
      if code = 200 then (.ok (), attempt + 1)
      else waitLoop probe (attempt + 1) fuel
    | .connError => waitLoop probe (attempt + 1) fuel

/-- `RevitMcpToolHandler._wait_for_server_ready(max_retries, retry_interval)`
(the sleep between attempts is irrelevant to the result and elided). -/
def wait_for_server_ready (probe : Nat → ProbeOutcome) (max_retries : Nat) :
    Except String Unit × Nat :=
  waitLoop probe 0 max_retries

/-- The registration payload built for one tool in `register_tools`:
field defaults follow `schema.get(...)` in the source. -/
def registration_data (tool_name : String) (schema : List (String × Json)) : Json :=
  Json.obj [
    ("id", .str (TOOL_ID ++ "." ++ tool_name)),
    ("name", Json.getD schema "name" (.str tool_name)),
    ("description", Json.getD schema "description" (.str "")),
    ("version", Json.getD schema "version" (.str "1.0.0")),
    ("input_schema", Json.getD schema "input_schema" (.obj [])),
    ("output_schema", Json.getD schema "output_schema" (.obj [])),
    ("endpoint", .str ("http://revit-mcp-tool:" ++ toString TOOL_PORT
       ++ "/tools/" ++ tool_name))]

/-- Outcome of one `requests.post(REGISTRY_URL + "/v1/tools", ...)`:
an HTTP response, or an exception (caught by the per-tool `except`). -/
inductive RegistryOutcome where
  | response (status_code : Nat) (text : String)
  | exn (msg : String)

/-- What the loop records (logs) for one tool: its composite id, whether
registration succeeded, and the logged message. -/
structure RegistrationOutcome where
  tool_id : String
  success : Bool
  message : String

/-- One iteration of the `register_tools` loop: build the payload, post
it, log success for 200/201, log failure otherwise; an exception from the
call is caught and logged, never re-raised. -/
def register_one (registry : Json → RegistryOutcome) (tool_name : String)
    (schema : List (String × Json)) : RegistrationOutcome :=
  let tool_id := TOOL_ID ++ "." ++ tool_name
  match registry (registration_data tool_name schema) with
  | .response code text =>
    if code = 200 ∨ code = 201 then
      ⟨tool_id, true, "Successfully registered tool: " ++ tool_id⟩
    else
      ⟨tool_id, false, "Failed to register tool " ++ tool_id ++ ": "
        ++ toString code ++ " - " ++ text⟩
  | .exn msg =>
    ⟨tool_id, false, "Error registering tool " ++ tool_id ++ ": " ++ msg⟩

/-- `RevitMcpToolHandler.register_tools`, over the loaded schema mapping
(tool name → schema dict, in iteration order) and the registry's behaviour
(a function of the posted payload).  Returns the recorded outcomes and the
list of payloads posted, in order. -/
def register_tools (schemas : List (String × List (String × Json)))
    (registry : Json → RegistryOutcome) :
    List RegistrationOutcome × List Json :=
  schemas.foldl
    (fun acc p => (acc.1 ++ [register_one registry p.1 p.2],
                   acc.2 ++ [registration_data p.1 p.2]))
    ([], [])

/-- Behaviour of the supervised backend process at shutdown: whether it
exits within the wait timeout after `terminate()`. -/
structure ProcBehavior where
  exitsWithinTimeout : Bool

/-- Observable effects of `shutdown`: whether `terminate()` was sent, the
timeout passed to `wait` (`none` when `wait` is never called), and the
result — the log lines emitted, or the exception that escaped. -/
structure ShutdownOutcome where
  terminateSent : Bool
  waitTimeout : Option Nat
  result : Except String (List String)

/-- `RevitMcpToolHandler.shutdown`.  When a process handle exists it calls
`terminate()` then `wait(timeout=5)`; `wait` raises
`subprocess.TimeoutExpired` if the process has not exited after 5 seconds,
and `shutdown` does not catch it, so the exception escapes and the final
log line is skipped. -/
def shutdown (proc : Option ProcBehavior) : ShutdownOutcome :=
  match proc with
  | none =>
    { terminateSent := false, waitTimeout := none,
      result := .ok ["Revit MCP Tool Handler shutdown complete"] }
  | some p =>
    { terminateSent := true, waitTimeout := some 5,
      result :=
        if p.exitsWithinTimeout then
          .ok ["Stopping Revit MCP Server...",
               "Revit MCP Tool Handler shutdown complete"]
        else
          .error "subprocess.TimeoutExpired" }

/-- A backend that answers every call with HTTP 200 and the body
`{"status": "ok"}`; used to instantiate theorems at concrete inputs. -/
def okStatusBackend : String → Json → BackendOutcome :=
  fun _ _ => .response 200 "" (.ok (.obj [("status", .str "ok")]))

/-! ### Helper lemmas -/

theorem isErrorShape_errorResponse (msg : String) :
    isErrorShape (errorResponse msg) :=
  ⟨Json.str msg, rfl⟩

theorem not_isSuccessShape_errorResponse (msg : String) :
    ¬ isSuccessShape (errorResponse msg) := by
  rintro ⟨r, h⟩
  simp [errorResponse] at h

theorem translate_revit_to_mcp_ok_shape (tool_name : String)
    (revit_response : Json) (j : Json)
    (h : translate_revit_to_mcp tool_name revit_response = .ok j) :
    isSuccessShape j ∨ isErrorShape j := by
  unfold translate_revit_to_mcp at h
  cases revit_response with
  | obj kvs =>
    by_cases hs : isErrorStatus (kvs.lookup "status") = true
    · simp [hs] at h
      right
      exact ⟨_, h.symm⟩
    · simp [hs] at h
      by_cases h1 : tool_name = "revit_element_query"
      · simp [h1] at h
        left
        exact ⟨_, h.symm⟩
      · by_cases h2 : tool_name = "revit_dynamo_execute"
        · simp [h1, h2] at h
          left
          exact ⟨_, h.symm⟩
        · simp [h1, h2] at h
  | str s => simp at h
  | num n => simp at h
  | bool b => simp at h
  | null => simp at h
  | arr xs => simp at h

theorem handle_tool_request_shape (tool_name : String) (request_data : Json)
    (backend : String → Json → BackendOutcome) :
    isSuccessShape (handle_tool_request tool_name request_data backend).1 ∨
    isErrorShape (handle_tool_request tool_name request_data backend).1 := by
  unfold handle_tool_request
  repeat' split
  all_goals
    first
      | exact Or.inr (isErrorShape_errorResponse _)
      | (rename_i mcp_response hok
         simpa using translate_revit_to_mcp_ok_shape _ _ _ hok)

/-! ### Claim theorems -/

/-- C3: for every request naming a tool outside the known set, the
dispatcher returns exactly `{status: "error", error: "Unknown tool: <name>"}`
and performs no outbound backend call (the call flag is `false`). -/
theorem c3_unknown_tool_uniform_error_no_backend_call
    (tool_name : String) (request_data : Json)
    (backend : String → Json → BackendOutcome)
    (h1 : tool_name ≠ "revit_element_query")
    (h2 : tool_name ≠ "revit_dynamo_execute") :
    handle_tool_request tool_name request_data backend
      = (Json.obj [("status", Json.str "error"),
                   ("error", Json.str ("Unknown tool: " ++ tool_name))], false) := by
  unfold handle_tool_request translate_mcp_to_revit
  simp [h1, h2, errorResponse]

theorem c3_unknown_tool_uniform_error_no_backend_call_witness :
    handle_tool_request "revit_nonexistent" (Json.obj []) okStatusBackend
      = (Json.obj [("status", Json.str "error"),
                   ("error", Json.str "Unknown tool: revit_nonexistent")], false) :=
  c3_unknown_tool_uniform_error_no_backend_call "revit_nonexistent" (Json.obj [])
    okStatusBackend (by decide) (by decide)

/-- C4: for every tool name (known or unknown), a backend response whose
`status` field is `"error"` is translated to the uniform error shape
`{status: "error", error: <backend error message, default "Unknown error">}`
before any tool-specific field extraction. -/
theorem c4_backend_error_short_circuits
    (tool_name : String) (kvs : List (String × Json))
    (h : kvs.lookup "status" = some (Json.str "error")) :
    translate_revit_to_mcp tool_name (Json.obj kvs)
      = .ok (Json.obj [("status", Json.str "error"),
             ("error", Json.getD kvs "error" (Json.str "Unknown error"))]) := by
  unfold translate_revit_to_mcp
  simp [h, isErrorStatus]

theorem c4_backend_error_short_circuits_witness :
    translate_revit_to_mcp "some_totally_unknown_tool"
        (Json.obj [("status", Json.str "error"), ("error", Json.str "timeout")])
      = .ok (Json.obj [("status", Json.str "error"),
                       ("error", Json.str "timeout")]) :=
  c4_backend_error_short_circuits "some_totally_unknown_tool"
    [("status", Json.str "error"), ("error", Json.str "timeout")] rfl

/-- C5: the `revit_element_query` scenario — the MCP request with
`category "Walls"` and `filter "Height>10"` maps to exactly the
`getElementsByCategory` backend request, and the backend response
`{status: "ok", data: {count: 3}}` maps to exactly
`{status: "success", result: {count: 3}}`. -/
theorem c5_element_query_scenario :
    translate_mcp_to_revit "revit_element_query"
        (Json.obj [("inputs", Json.obj [("category", Json.str "Walls"),
                                        ("filter", Json.str "Height>10")])])
      = .ok (Json.obj [("action", Json.str "getElementsByCategory"),
             ("parameters", Json.obj [("category", Json.str "Walls"),
                                      ("filterExpression", Json.str "Height>10")])])
    ∧ translate_revit_to_mcp "revit_element_query"
        (Json.obj [("status", Json.str "ok"),
                   ("data", Json.obj [("count", Json.num 3)])])
      = .ok (Json.obj [("status", Json.str "success"),
             ("result", Json.obj [("count", Json.num 3)])]) :=
  ⟨rfl, rfl⟩

/-- C9: for the known tools, `translate_mcp_to_revit` never fails on
missing input fields — when the `inputs` mapping is absent every expected
key gets its default (empty string, or empty mapping for dynamo script
parameters), and when `inputs` is present each expected key is read with
the same defaults, so the result is always a well-formed `Except.ok`
backend request. -/
theorem c9_missing_fields_defaulted (kvs ikvs : List (String × Json)) :
    (kvs.lookup "inputs" = none →
       translate_mcp_to_revit "revit_element_query" (Json.obj kvs)
         = .ok (Json.obj [("action", Json.str "getElementsByCategory"),
                ("parameters", Json.obj [("category", Json.str ""),
                                         ("filterExpression", Json.str "")])])
       ∧ translate_mcp_to_revit "revit_dynamo_execute" (Json.obj kvs)
         = .ok (Json.obj [("action", Json.str "runDynamoScript"),
                ("parameters", Json.obj [("scriptPath", Json.str ""),
                                         ("scriptParameters", Json.obj [])])]))
    ∧ (kvs.lookup "inputs" = some (Json.obj ikvs) →
       translate_mcp_to_revit "revit_element_query" (Json.obj kvs)
         = .ok (Json.obj [("action", Json.str "getElementsByCategory"),
                ("parameters", Json.obj
                  [("category", Json.getD ikvs "category" (Json.str "")),
                   ("filterExpression", Json.getD ikvs "filter" (Json.str ""))])])
       ∧ translate_mcp_to_revit "revit_dynamo_execute" (Json.obj kvs)
         = .ok (Json.obj [("action", Json.str "runDynamoScript"),
                ("parameters", Json.obj
                  [("scriptPath", Json.getD ikvs "script_path" (Json.str "")),
                   ("scriptParameters", Json.getD ikvs "parameters" (Json.obj []))])])) := by
  constructor
  · intro h
    constructor
    · unfold translate_mcp_to_revit
      simp [Json.getD, h]
    · unfold translate_mcp_to_revit
      simp [Json.getD, h]
  · intro h
    constructor
    · unfold translate_mcp_to_revit
      simp [Json.getD, h]
    · unfold translate_mcp_to_revit
      simp [Json.getD, h]

theorem c9_missing_fields_defaulted_witness :
    translate_mcp_to_revit "revit_element_query" (Json.obj [])
      = .ok (Json.obj [("action", Json.str "getElementsByCategory"),
             ("parameters", Json.obj [("category", Json.str ""),
                                      ("filterExpression", Json.str "")])])
    ∧ translate_mcp_to_revit "revit_dynamo_execute"
        (Json.obj [("inputs", Json.obj [])])
      = .ok (Json.obj [("action", Json.str "runDynamoScript"),
             ("parameters", Json.obj [("scriptPath", Json.str ""),
                                      ("scriptParameters", Json.obj [])])]) :=
  ⟨((c9_missing_fields_defaulted [] []).1 rfl).1,
   ((c9_missing_fields_defaulted [("inputs", Json.obj [])] []).2 rfl).2⟩

/-- C1 counterexample: a request body that is not well-formed JSON makes
`json.loads` raise inside `do_POST`, before `handle_tool_request` is
reached; the exception escapes to the transport layer and no well-formed
JSON response of the uniform shape is produced — refuting "the
transport-level response is always well-formed JSON of this deterministic
shape". -/
theorem c1_counterexample_malformed_body_escapes :
    ¬ ∃ resp, do_POST (Except.error "Expecting value: line 1 column 1 (char 0)")
        "/tools/revit_element_query" okStatusBackend = Except.ok resp := by
  rintro ⟨resp, h⟩
  simp [do_POST] at h

/-- C1 (amended): for every request whose body parses as JSON, every
failure stage inside `handle_tool_request` (unknown tool, malformed
payload structure, backend non-2xx, backend transport failure, translation
error) is contained: the dispatcher's result is always a JSON value of the
deterministic success or uniform error shape, no exception escapes, and
`do_POST` writes exactly that value. -/
theorem c1_amended_parsed_request_failures_contained
    (tool_name : String) (request_data : Json) (path : String)
    (backend : String → Json → BackendOutcome) :
    (isSuccessShape (handle_tool_request tool_name request_data backend).1
     ∨ isErrorShape (handle_tool_request tool_name request_data backend).1)
    ∧ ∃ resp, do_POST (Except.ok request_data) path backend = Except.ok resp
        ∧ (isSuccessShape resp.body ∨ isErrorShape resp.body) :=
  ⟨handle_tool_request_shape tool_name request_data backend,
   ⟨_, rfl, handle_tool_request_shape (pathToolName path) request_data backend⟩⟩

/-- C2 counterexample: with an empty Schema Store the dispatcher still
processes `revit_element_query` to a successful result — the per-request
path never consults the Schema Store, so a successfully-processed tool
name need not have a Schema Store entry, refuting the claim as stated. -/
theorem c2_counterexample_success_without_schema_entry :
    isSuccessShape
      (handle_tool_request "revit_element_query" (Json.obj []) okStatusBackend).1
    ∧ "revit_element_query" ∉ ([] : List String) :=
  ⟨⟨Json.obj [], rfl⟩, by simp⟩

/-- C2 (amended): every tool name the dispatcher processes to a successful
result has a Translator mapping (it is one of the two known tool names),
and a tool name with no mapping is always turned into the hard uniform
error, never silently ignored; the Schema Store is not consulted on the
request path, so no Schema Store membership is guaranteed. -/
theorem c2_amended_success_implies_translator_mapping
    (tool_name : String) (request_data : Json)
    (backend : String → Json → BackendOutcome) :
    (isSuccessShape (handle_tool_request tool_name request_data backend).1 →
       tool_name = "revit_element_query" ∨ tool_name = "revit_dynamo_execute")
    ∧ (tool_name ≠ "revit_element_query" → tool_name ≠ "revit_dynamo_execute" →
       (handle_tool_request tool_name request_data backend).1
         = errorResponse ("Unknown tool: " ++ tool_name)) := by
  constructor
  · intro h
    by_contra hne
    push_neg at hne
    obtain ⟨h1, h2⟩ := hne
    have heq : handle_tool_request tool_name request_data backend
        = (errorResponse ("Unknown tool: " ++ tool_name), false) := by
      unfold handle_tool_request translate_mcp_to_revit
      simp [h1, h2]
    rw [heq] at h
    exact not_isSuccessShape_errorResponse _ h
  · intro h1 h2
    have heq : handle_tool_request tool_name request_data backend
        = (errorResponse ("Unknown tool: " ++ tool_name), false) := by
      unfold handle_tool_request translate_mcp_to_revit
      simp [h1, h2]
    rw [heq]

theorem c2_amended_success_implies_translator_mapping_witness :
    ("revit_element_query" = "revit_element_query"
      ∨ "revit_element_query" = "revit_dynamo_execute")
    ∧ (handle_tool_request "revit_unmapped" (Json.obj []) okStatusBackend).1
        = errorResponse "Unknown tool: revit_unmapped" :=
  ⟨(c2_amended_success_implies_translator_mapping "revit_element_query"
      (Json.obj []) okStatusBackend).1 ⟨Json.obj [], rfl⟩,
   (c2_amended_success_implies_translator_mapping "revit_unmapped"
      (Json.obj []) okStatusBackend).2 (by decide) (by decide)⟩

/-- C10: every POST request that reaches the response-writing stage (its
body parsed as JSON) is answered with transport status code 200 and
content type `application/json`, also when the written body is the uniform
error result — the error/success distinction is carried only in the JSON
body. -/
theorem c10_response_always_200 (request_data : Json) (path : String)
    (backend : String → Json → BackendOutcome) :
    (∃ body, do_POST (Except.ok request_data) path backend
       = Except.ok ⟨200, "application/json", body⟩)
    ∧ do_POST (Except.ok (Json.obj [])) "/tools/revit_nonexistent" backend
       = Except.ok ⟨200, "application/json",
           errorResponse "Unknown tool: revit_nonexistent"⟩ := by
  constructor
  · exact ⟨_, rfl⟩
  · rfl

theorem waitLoop_exhaust (probe : Nat → ProbeOutcome) :
    ∀ fuel start, (∀ i, start ≤ i → i < start + fuel → probe i ≠ .ok 200) →
    waitLoop probe start fuel
      = (.error "Failed to connect to Revit MCP Server", start + fuel) := by
  intro fuel
  induction fuel with
  | zero => intro start _; simp [waitLoop]
  | succ n ih =>
    intro start hnone
    unfold waitLoop
    cases hp : probe start with
    | ok code =>
      by_cases hc : code = 200
      · exact absurd (hc ▸ hp)
          (hnone start (Nat.le_refl start) (Nat.lt_add_of_pos_right (Nat.succ_pos n)))
      · have harith : start + (n + 1) = start + 1 + n := by omega
        rw [harith]
        simp only [hc, if_false]
        exact ih (start + 1) (fun i h1 h2 => hnone i (Nat.le_of_succ_le h1)
          (by omega))
    | connError =>
      have harith : start + (n + 1) = start + 1 + n := by omega
      rw [harith]
      exact ih (start + 1) (fun i h1 h2 => hnone i (Nat.le_of_succ_le h1)
        (by omega))

theorem waitLoop_success (probe : Nat → ProbeOutcome) :
    ∀ fuel start i, start ≤ i → i < start + fuel → probe i = .ok 200 →
    (∀ j, start ≤ j → j < i → probe j ≠ .ok 200) →
    waitLoop probe start fuel = (.ok (), i + 1) := by
  intro fuel
  induction fuel with
  | zero => intro start i h1 h2; omega
  | succ n ih =>
    intro start i h1 h2 hok hmin
    unfold waitLoop
    by_cases hsi : start = i
    · subst hsi
      rw [hok]
      simp
    · have hlt : start < i := Nat.lt_of_le_of_ne h1 hsi
      have hne : probe start ≠ .ok 200 := hmin start (Nat.le_refl start) hlt
      cases hp : probe start with
      | ok code =>
        by_cases hc : code = 200
        · exact absurd (hc ▸ hp) hne
        · simp only [hc, if_false]
          exact ih (start + 1) i hlt (by omega) hok
            (fun j hj1 hj2 => hmin j (Nat.le_of_succ_le hj1) hj2)
      | connError =>
        exact ih (start + 1) i hlt (by omega) hok
          (fun j hj1 hj2 => hmin j (Nat.le_of_succ_le hj1) hj2)

theorem waitLoop_probe_bound (probe : Nat → ProbeOutcome) :
    ∀ fuel start, (waitLoop probe start fuel).2 ≤ start + fuel := by
  intro fuel
  induction fuel with
  | zero => intro start; simp [waitLoop]
  | succ n ih =>
    intro start
    unfold waitLoop
    cases probe start with
    | ok code =>
      by_cases hc : code = 200
      · simp [hc]
      · simp only [hc, if_false]
        show (waitLoop probe (start + 1) n).2 ≤ start + (n + 1)
        have := ih (start + 1)
        omega
    | connError =>
      show (waitLoop probe (start + 1) n).2 ≤ start + (n + 1)
      have := ih (start + 1)
      omega

/-- C6 counterexample: a backend that answers every health probe with
status 204 — a 2xx-equivalent response — never satisfies the loop, which
accepts exactly status 200; the attempt budget is exhausted and
`RuntimeError` is raised although a 2xx response was returned on the very
first probe, refuting "succeeds as soon as a probe returns a
2xx-equivalent response". -/
theorem c6_counterexample_2xx_not_accepted :
    200 ≤ 204 ∧ 204 < 300
    ∧ wait_for_server_ready (fun _ => ProbeOutcome.ok 204) 30
        = (.error "Failed to connect to Revit MCP Server", 30) :=
  ⟨by decide, by decide, rfl⟩

/-- C6 (amended): for every attempt budget and probe-outcome sequence,
`_wait_for_server_ready` terminates issuing at most `max_retries` probes;
it succeeds as soon as a probe returns status exactly 200, and if no probe
among the first `max_retries` attempts returns 200 (for example the
backend is unreachable and every probe raises `ConnectionError`), it stops
after exactly `max_retries` attempts and raises
`RuntimeError("Failed to connect to Revit MCP Server")` rather than
hanging. -/
theorem c6_amended_readiness_bounded (probe : Nat → ProbeOutcome)
    (max_retries : Nat) :
    (wait_for_server_ready probe max_retries).2 ≤ max_retries
    ∧ ((∀ i, i < max_retries → probe i ≠ .ok 200) →
       wait_for_server_ready probe max_retries
         = (.error "Failed to connect to Revit MCP Server", max_retries))
    ∧ (∀ i, i < max_retries → probe i = .ok 200 →
       (∀ j, j < i → probe j ≠ .ok 200) →
       wait_for_server_ready probe max_retries = (.ok (), i + 1)) := by
  refine ⟨?_, ?_, ?_⟩
  · simpa using waitLoop_probe_bound probe max_retries 0
  · intro h
    simpa using waitLoop_exhaust probe max_retries 0
      (fun i _ h2 => h i (by omega))
  · intro i hi hok hmin
    exact waitLoop_success probe max_retries 0 i (Nat.zero_le i) (by omega) hok
      (fun j _ hj => hmin j hj)

theorem c6_amended_readiness_bounded_witness :
    wait_for_server_ready (fun _ => ProbeOutcome.connError) 3
      = (.error "Failed to connect to Revit MCP Server", 3)
    ∧ wait_for_server_ready (fun _ => ProbeOutcome.ok 200) 3 = (.ok (), 1) :=
  ⟨(c6_amended_readiness_bounded (fun _ => ProbeOutcome.connError) 3).2.1
     (fun i _ h => ProbeOutcome.noConfusion h),
   (c6_amended_readiness_bounded (fun _ => ProbeOutcome.ok 200) 3).2.2 0
     (by decide) rfl (fun j hj => absurd hj (Nat.not_lt_zero j))⟩

theorem register_one_tool_id (registry : Json → RegistryOutcome)
    (tool_name : String) (schema : List (String × Json)) :
    (register_one registry tool_name schema).tool_id
      = TOOL_ID ++ "." ++ tool_name := by
  unfold register_one
  repeat' split
  all_goals rfl

theorem register_tools_foldl_acc (registry : Json → RegistryOutcome) :
    ∀ (schemas : List (String × List (String × Json)))
      (a : List RegistrationOutcome) (b : List Json),
    schemas.foldl
      (fun acc p => (acc.1 ++ [register_one registry p.1 p.2],
                     acc.2 ++ [registration_data p.1 p.2])) (a, b)
      = (a ++ schemas.map (fun p => register_one registry p.1 p.2),
         b ++ schemas.map (fun p => registration_data p.1 p.2)) := by
  intro schemas
  induction schemas with
  | nil => intro a b; simp
  | cons p rest ih =>
    intro a b
    simp only [List.foldl_cons, List.map_cons]
    rw [ih]
    simp

theorem register_tools_eq_map (schemas : List (String × List (String × Json)))
    (registry : Json → RegistryOutcome) :
    register_tools schemas registry
      = (schemas.map (fun p => register_one registry p.1 p.2),
         schemas.map (fun p => registration_data p.1 p.2)) := by
  unfold register_tools
  simpa using register_tools_foldl_acc registry schemas [] []

/-- C7: for every collection of N schemas, `register_tools` posts one
registration per schema and records one outcome per schema (N calls, N
outcomes, in order, one per tool id); a failed registration of one tool
(non-2xx response or exception from the call) is its own recorded outcome
and does not prevent the registrations before or after it from being
attempted and reported. -/
theorem c7_registration_failures_isolated
    (schemas : List (String × List (String × Json)))
    (registry : Json → RegistryOutcome) :
    (register_tools schemas registry).1.length = schemas.length
    ∧ (register_tools schemas registry).2.length = schemas.length
    ∧ (register_tools schemas registry).1.map (fun o => o.tool_id)
        = schemas.map (fun p => TOOL_ID ++ "." ++ p.1)
    ∧ ∀ pre p post,
        (register_tools (pre ++ p :: post) registry).1
          = (register_tools pre registry).1
            ++ register_one registry p.1 p.2 :: (register_tools post registry).1 := by
  refine ⟨?_, ?_, ?_, ?_⟩
  · rw [register_tools_eq_map]
    simp
  · rw [register_tools_eq_map]
    simp
  · rw [register_tools_eq_map]
    simp only [List.map_map]
    exact List.map_congr_left (fun p _ => register_one_tool_id registry p.1 p.2)
  · intro pre p post
    rw [register_tools_eq_map, register_tools_eq_map, register_tools_eq_map]
    simp

/-- C8 counterexample: when the backend process does not exit within the
wait timeout, `subprocess.Popen.wait(timeout=5)` raises `TimeoutExpired`,
which `shutdown` does not catch — the condition is escalated as a fault
rather than logged and absorbed, refuting "is not escalated as a fault". -/
theorem c8_counterexample_timeout_escalates :
    ¬ ∃ logs, (shutdown (some ⟨false⟩)).result = Except.ok logs := by
  rintro ⟨logs, h⟩
  simp [shutdown] at h

/-- C8 (amended): `shutdown` sends the graceful termination signal and then
waits with the fixed bounded timeout of 5 seconds (the wait never blocks
indefinitely); if the process exits in time the completion is logged, but
if it does not, the `subprocess.TimeoutExpired` exception propagates out of
`shutdown` uncaught — the condition is not silently discarded, yet it is
escalated as a fault instead of being merely logged. -/
theorem c8_amended_bounded_wait_raises (p : ProcBehavior) :
    (shutdown (some p)).terminateSent = true
    ∧ (shutdown (some p)).waitTimeout = some 5
    ∧ (p.exitsWithinTimeout = false →
        (shutdown (some p)).result = Except.error "subprocess.TimeoutExpired")
    ∧ (p.exitsWithinTimeout = true →
        (shutdown (some p)).result
          = Except.ok ["Stopping Revit MCP Server...",
                       "Revit MCP Tool Handler shutdown complete"]) := by
  refine ⟨rfl, rfl, ?_, ?_⟩
  · intro h
    simp [shutdown, h]
  · intro h
    simp [shutdown, h]

theorem c8_amended_bounded_wait_raises_witness :
    (shutdown (some ⟨false⟩)).terminateSent = true
    ∧ (shutdown (some ⟨false⟩)).waitTimeout = some 5
    ∧ (shutdown (some ⟨false⟩)).result = Except.error "subprocess.TimeoutExpired" :=
  ⟨(c8_amended_bounded_wait_raises ⟨false⟩).1,
   (c8_amended_bounded_wait_raises ⟨false⟩).2.1,
   (c8_amended_bounded_wait_raises ⟨false⟩).2.2.1 rfl⟩
